import Mathlib

/-!
Shallow embedding of `emr_containers.py`: a thin client around the
EMR-on-EKS (emr-containers) service API.  The remote service is modelled
as an oracle (`Remote`): for each SDK call it yields either a response
record or a raised error.  Each client method is embedded as a pure
function returning the list of SDK requests it issues (in order) together
with its Python return value, where a raised exception is `Except.error`.
-/

namespace EmrContainers

/-- Errors a call can raise: Python-level `AttributeError` (calling
`.get` on `None`), `TypeError` (iterating over `None`), or a remote
service error carried by the SDK (e.g. NotFound). -/
inductive PyErr where
  | attributeError
  | typeError
  | clientError (code : String)
  deriving Repr, DecidableEq

/-- The `eksInfo` dict of a listed virtual cluster; its `namespace` key
may be absent (`ns = none`). -/
structure EksInfo where
  ns : Option String
  deriving Repr, DecidableEq

/-- The `info` dict under `containerProvider`; its `eksInfo` key may be
absent. -/
structure CPInfo where
  eksInfo : Option EksInfo
  deriving Repr, DecidableEq

/-- The `containerProvider` dict of a listed virtual cluster; its `info`
key may be absent. -/
structure ContainerProvider where
  info : Option CPInfo
  deriving Repr, DecidableEq

/-- One entry of the `virtualClusters` listing. -/
structure VirtualCluster where
  id : String
  containerProvider : ContainerProvider
  deriving Repr, DecidableEq

/-- A remote job-run record, kept abstract as a key/value dict: the
client returns it verbatim and never inspects it. -/
abbrev JobRun := List (String × String)

/-- The `sparkSubmitJobDriver` block of the submit payload. -/
structure SparkSubmitJobDriver where
  entryPoint : String
  entryPointArguments : List String
  sparkSubmitParameters : String
  deriving Repr, DecidableEq

/-- The `jobDriver` block of the submit payload. -/
structure JobDriver where
  sparkSubmitJobDriver : SparkSubmitJobDriver
  deriving Repr, DecidableEq

/-- The `cloudWatchMonitoringConfiguration` block. -/
structure CloudWatchMonitoringConfiguration where
  logGroupName : String
  logStreamNamePrefix : String
  deriving Repr, DecidableEq

/-- The `s3MonitoringConfiguration` block. -/
structure S3MonitoringConfiguration where
  logUri : String
  deriving Repr, DecidableEq

/-- The `monitoringConfiguration` block of the submit payload. -/
structure MonitoringConfiguration where
  cloudWatchMonitoringConfiguration : CloudWatchMonitoringConfiguration
  s3MonitoringConfiguration : S3MonitoringConfiguration
  deriving Repr, DecidableEq

/-- A nested configuration inside an application-configuration block
(the source nests exactly one level: the `export` block under
`spark-env`). -/
structure ExportConfiguration where
  classification : String
  properties : List (String × String)
  deriving Repr, DecidableEq

/-- One element of the `applicationConfiguration` list; `configurations`
is `none` when the source dict carries no such key. -/
structure ApplicationConfiguration where
  classification : String
  properties : List (String × String)
  configurations : Option (List ExportConfiguration)
  deriving Repr, DecidableEq

/-- The `configurationOverrides` block of the submit payload. -/
structure ConfigurationOverrides where
  monitoringConfiguration : MonitoringConfiguration
  applicationConfiguration : List ApplicationConfiguration
  deriving Repr, DecidableEq

/-- The full keyword-argument payload of `client.start_job_run`.
`virtualClusterId` is an `Option` because the source forwards the result
of `get_cluster_by_ns`, which can be `None`. -/
structure StartJobRunParams where
  name : String
  virtualClusterId : Option String
  executionRoleArn : String
  releaseLabel : String
  jobDriver : JobDriver
  configurationOverrides : ConfigurationOverrides
  deriving Repr, DecidableEq

/-- The keyword arguments of `client.list_job_runs` as the source passes
them; `maxResults` and `nextToken` are optional SDK parameters the
source never supplies (they stay `none`). -/
structure ListJobRunsParams where
  virtualClusterId : Option String
  createdBefore : String
  createdAfter : String
  states : List String
  maxResults : Option Nat
  nextToken : Option String
  deriving Repr, DecidableEq

/-- The keyword arguments of `client.list_virtual_clusters` as the source
passes them; `maxResults` and `nextToken` are optional SDK parameters the
source never supplies (they stay `none`). -/
structure ListVirtualClustersParams where
  containerProviderType : String
  states : List String
  maxResults : Option Nat
  nextToken : Option String
  deriving Repr, DecidableEq

/-- One SDK request issued by the client.  `describe_job_run` and
`cancel_job_run` carry their keyword arguments as a raw key/value list so
that the exact keyword names the source uses are part of the request. -/
inductive Request where
  | startJobRun (params : StartJobRunParams)
  | describeJobRun (kwargs : List (String × String))
  | cancelJobRun (kwargs : List (String × String))
  | listJobRuns (params : ListJobRunsParams)
  | listVirtualClusters (params : ListVirtualClustersParams)
  deriving Repr, DecidableEq

/-- Response of `start_job_run`; the source reads only `response.get("id")`. -/
structure StartJobRunResponse where
  id : Option String
  deriving Repr, DecidableEq

/-- Response of `describe_job_run`; the source reads `response.get("jobRun")`. -/
structure DescribeJobRunResponse where
  jobRun : Option JobRun
  deriving Repr, DecidableEq

/-- Response of `cancel_job_run`; the source reads `response.get("jobRun")`. -/
structure CancelJobRunResponse where
  jobRun : Option JobRun
  deriving Repr, DecidableEq

/-- Response of `list_job_runs`; the source reads `response.get("jobRuns")`. -/
structure ListJobRunsResponse where
  jobRuns : Option (List JobRun)
  deriving Repr, DecidableEq

/-- Response of `list_virtual_clusters`; the source reads
`response.get("virtualClusters")`. -/
structure ListVirtualClustersResponse where
  virtualClusters : Option (List VirtualCluster)
  deriving Repr, DecidableEq

/-- The remote service oracle: for every SDK call, either the response
record or the error the call raises. -/
structure Remote where
  start_job_run : StartJobRunParams → Except PyErr StartJobRunResponse
  describe_job_run : List (String × String) → Except PyErr DescribeJobRunResponse
  cancel_job_run : List (String × String) → Except PyErr CancelJobRunResponse
  list_job_runs : ListJobRunsParams → Except PyErr ListJobRunsResponse
  list_virtual_clusters : ListVirtualClustersParams → Except PyErr ListVirtualClustersResponse

/-- The client object: `__init__` stores only the region-bound SDK
client, so the region is the whole per-instance state. -/
structure EMRContainers where
  REGION : String
  deriving Repr, DecidableEq

/-- Requests as dispatched on the wire through the instance's
region-bound SDK client: each request is tagged with the region the
client was constructed with. -/
def sentRequests (self : EMRContainers) (reqs : List Request) : List (String × Request) :=
  reqs.map (fun r => (self.REGION, r))

/-- The parameters of `start_spark_job`, in source order. -/
structure SparkJobArgs where
  NAME_SPACE : String
  EMR_EKS_EXECUTION_ARN : String
  S3_BUCKET : String
  JOB_NAME : String
  LOG_GROUP : String
  LOG_STREAM_PREFIX : String
  DB_CONN_URL : String
  USER_NAME : String
  PASSWORD : String
  EntryPoint : String
  JARS : String
  Arguments : List String
  Driver_cores : String
  Executor_cores : String
  Executor_memory : String
  deriving Repr, DecidableEq

/-- The `sparkSubmitParameters` string built at `emr_containers.py:72`. -/
def sparkSubmitParametersOf (JARS Executor_memory Executor_cores Driver_cores : String) : String :=
  "--jars " ++ JARS ++ " --conf spark.executor.memory=" ++ Executor_memory ++
    " --conf spark.executor.cores=" ++ Executor_cores ++
    " --conf spark.driver.cores=" ++ Driver_cores

/-- The full `start_job_run` payload built at `emr_containers.py:63-125`,
as a function of the call arguments and the cluster-resolution result. -/
def startJobRunRequestOf (a : SparkJobArgs) (EMR_EKS_CLUSTER_ID : Option String) :
    StartJobRunParams :=
  { name := a.JOB_NAME
    virtualClusterId := EMR_EKS_CLUSTER_ID
    executionRoleArn := a.EMR_EKS_EXECUTION_ARN
    releaseLabel := "emr-6.15.0-20231109"
    jobDriver :=
      { sparkSubmitJobDriver :=
        { entryPoint := a.EntryPoint
          entryPointArguments := a.Arguments
          sparkSubmitParameters :=
            sparkSubmitParametersOf a.JARS a.Executor_memory a.Executor_cores a.Driver_cores } }
    configurationOverrides :=
      { monitoringConfiguration :=
          { cloudWatchMonitoringConfiguration :=
              { logGroupName := a.LOG_GROUP
                logStreamNamePrefix := a.LOG_STREAM_PREFIX }
            s3MonitoringConfiguration := { logUri := "s3://" ++ a.S3_BUCKET } }
        applicationConfiguration :=
          [ { classification := "emr-containers-defaults"
              properties := [("job-start-timeout", "600")]
              configurations := none },
            { classification := "spark-defaults"
              properties :=
                [("spark.dynamicAllocation.enabled", "false"),
                 ("spark.kubernetes.executor.deleteOnTermination", "true")]
              configurations := none },
            { classification := "spark-hive-site"
              properties :=
                [("hive.metastore.client.factory.class",
                   "org.apache.hadoop.hive.ql.metadata.SessionHiveMetaStoreClientFactory"),
                 ("javax.jdo.option.ConnectionDriverName", "com.mysql.cj.jdbc.Driver"),
                 ("javax.jdo.option.ConnectionUserName", a.USER_NAME),
                 ("javax.jdo.option.ConnectionPassword", a.PASSWORD),
                 ("javax.jdo.option.ConnectionURL", a.DB_CONN_URL)]
              configurations := none },
            { classification := "spark-env"
              properties := []
              configurations := some
                [ { classification := "export"
                    properties :=
                      [("_JAVA_OPTIONS",
                        "\"$_JAVA_OPTIONS -Dhttp.proxyHost=applicationwebproxy.nomura.com -Dhttp.proxyPort=80 -Dhttp.nonProxyHosts=s3.amazonaws.com\"")] } ] } ] } }

/-- The keyword arguments `describe_job` passes to `client.describe_job_run`
(`emr_containers.py:143-146`). -/
def describeJobRunKwargs (job_id virtual_cluster_id : String) : List (String × String) :=
  [("id", job_id), ("virtualClusterId", virtual_cluster_id)]

/-- The keyword arguments `cancel_job` passes to `client.cancel_job_run`
(`emr_containers.py:150-153`).  The source misspells the second keyword
as `irtualClusterId`. -/
def cancelJobRunKwargs (job_id virtual_cluster_id : String) : List (String × String) :=
  [("id", job_id), ("irtualClusterId", virtual_cluster_id)]

/-- `list_clusters` (`emr_containers.py:200-208`): one
`list_virtual_clusters` call, returning `response.get("virtualClusters")`. -/
def list_clusters (remote : Remote) (container_provider_type : String) (states : List String) :
    List Request × Except PyErr (Option (List VirtualCluster)) :=
  let params : ListVirtualClustersParams :=
    { containerProviderType := container_provider_type
      states := states
      maxResults := none
      nextToken := none }
  ([Request.listVirtualClusters params],
    match remote.list_virtual_clusters params with
    | Except.error e => Except.error e
    | Except.ok resp => Except.ok resp.virtualClusters)

/-- The `for vc in resp:` loop of `get_cluster_by_ns`
(`emr_containers.py:212-217`): `vc['containerProvider'].get('info')` is
`None` when `info` is absent, and the chained `.get('eksInfo')` on `None`
raises `AttributeError`; likewise for an absent `eksInfo`.  An absent
`namespace` key yields `None`, which simply fails the equality test. -/
def scanClusters (tenant_ns : String) : List VirtualCluster → Except PyErr (Option String)
  | [] => Except.ok none
  | vc :: rest =>
    match vc.containerProvider.info with
    | none => Except.error PyErr.attributeError
    | some ci =>
      match ci.eksInfo with
      | none => Except.error PyErr.attributeError
      | some ei =>
        if some tenant_ns = ei.ns then Except.ok (some vc.id)
        else scanClusters tenant_ns rest

/-- `get_cluster_by_ns` (`emr_containers.py:210-217`): lists clusters with
the fixed filter `('EKS', ['RUNNING'])`, then scans them; iterating over a
`None` listing raises `TypeError`. -/
def get_cluster_by_ns (remote : Remote) (tenant_ns : String) :
    List Request × Except PyErr (Option String) :=
  let r := list_clusters remote "EKS" ["RUNNING"]
  (r.1,
    match r.2 with
    | Except.error e => Except.error e
    | Except.ok none => Except.error PyErr.typeError
    | Except.ok (some vcs) => scanClusters tenant_ns vcs)

/-- `start_spark_job` (`emr_containers.py:41-127`): resolves the
namespace, then unconditionally issues `start_job_run` with the
resolution result (even `None`) and returns `response.get("id")`. -/
def start_spark_job (remote : Remote) (a : SparkJobArgs) :
    List Request × Except PyErr (Option String) :=
  let r := get_cluster_by_ns remote a.NAME_SPACE
  match r.2 with
  | Except.error e => (r.1, Except.error e)
  | Except.ok cid =>
    let params := startJobRunRequestOf a cid
    (r.1 ++ [Request.startJobRun params],
      match remote.start_job_run params with
      | Except.error e => Except.error e
      | Except.ok resp => Except.ok resp.id)

/-- `describe_job` (`emr_containers.py:142-147`). -/
def describe_job (remote : Remote) (job_id virtual_cluster_id : String) :
    List Request × Except PyErr (Option JobRun) :=
  let kwargs := describeJobRunKwargs job_id virtual_cluster_id
  ([Request.describeJobRun kwargs],
    match remote.describe_job_run kwargs with
    | Except.error e => Except.error e
    | Except.ok resp => Except.ok resp.jobRun)

/-- `cancel_job` (`emr_containers.py:149-154`). -/
def cancel_job (remote : Remote) (job_id virtual_cluster_id : String) :
    List Request × Except PyErr (Option JobRun) :=
  let kwargs := cancelJobRunKwargs job_id virtual_cluster_id
  ([Request.cancelJobRun kwargs],
    match remote.cancel_job_run kwargs with
    | Except.error e => Except.error e
    | Except.ok resp => Except.ok resp.jobRun)

/-- `list_jobs` (`emr_containers.py:167-187`): resolves the namespace,
then issues one `list_job_runs` call and returns
`response.get("jobRuns")`. -/
def list_jobs (remote : Remote) (NAME_SPACE created_before created_after : String)
    (states : List String) :
    List Request × Except PyErr (Option (List JobRun)) :=
  let r := get_cluster_by_ns remote NAME_SPACE
  match r.2 with
  | Except.error e => (r.1, Except.error e)
  | Except.ok cid =>
    let params : ListJobRunsParams :=
      { virtualClusterId := cid
        createdBefore := created_before
        createdAfter := created_after
        states := states
        maxResults := none
        nextToken := none }
    (r.1 ++ [Request.listJobRuns params],
      match remote.list_job_runs params with
      | Except.error e => Except.error e
      | Except.ok resp => Except.ok resp.jobRuns)

/-- The namespace attribute embedded in a listed cluster, when the full
`containerProvider.info.eksInfo.namespace` path is present. -/
def embeddedNs (vc : VirtualCluster) : Option String :=
  match vc.containerProvider.info with
  | none => none
  | some ci =>
    match ci.eksInfo with
    | none => none
    | some ei => ei.ns

/-- A listed cluster is well-formed when `containerProvider.info` and its
`eksInfo` are both present, so the scan's chained `.get` calls cannot
raise on it. -/
def WellFormedVC (vc : VirtualCluster) : Prop :=
  (vc.containerProvider.info.bind CPInfo.eksInfo).isSome = true

instance (vc : VirtualCluster) : Decidable (WellFormedVC vc) := by
  unfold WellFormedVC; infer_instance

/-- The fixed filter `get_cluster_by_ns` queries with. -/
def fixedClusterFilter : ListVirtualClustersParams :=
  { containerProviderType := "EKS"
    states := ["RUNNING"]
    maxResults := none
    nextToken := none }

/-! ### Concrete fixtures used to evaluate the operations -/

/-- A sample remote job-run record. -/
def okJobRun : JobRun := [("id", "jr-0001"), ("state", "RUNNING")]

/-- A remote oracle whose cluster listing is `vcs` and whose other calls
succeed with fixed sample responses. -/
def mkRemote (vcs : Option (List VirtualCluster)) : Remote :=
  { start_job_run := fun _ => Except.ok { id := some "job-0001" }
    describe_job_run := fun _ => Except.ok { jobRun := some okJobRun }
    cancel_job_run := fun _ => Except.ok { jobRun := some okJobRun }
    list_job_runs := fun _ => Except.ok { jobRuns := some [okJobRun] }
    list_virtual_clusters := fun _ => Except.ok { virtualClusters := vcs } }

/-- A remote oracle whose every call raises a NotFound service error. -/
def notFoundRemote : Remote :=
  { start_job_run := fun _ => Except.error (PyErr.clientError "ResourceNotFoundException")
    describe_job_run := fun _ => Except.error (PyErr.clientError "ResourceNotFoundException")
    cancel_job_run := fun _ => Except.error (PyErr.clientError "ResourceNotFoundException")
    list_job_runs := fun _ => Except.error (PyErr.clientError "ResourceNotFoundException")
    list_virtual_clusters := fun _ =>
      Except.error (PyErr.clientError "ResourceNotFoundException") }

/-- A running cluster whose embedded namespace is `emr`. -/
def emrCluster : VirtualCluster :=
  { id := "vc-emr"
    containerProvider := { info := some { eksInfo := some { ns := some "emr" } } } }

/-- A second running cluster whose embedded namespace is also `emr`. -/
def emrCluster2 : VirtualCluster :=
  { id := "vc-emr-2"
    containerProvider := { info := some { eksInfo := some { ns := some "emr" } } } }

/-- A running cluster whose embedded namespace is `other`. -/
def otherCluster : VirtualCluster :=
  { id := "vc-other"
    containerProvider := { info := some { eksInfo := some { ns := some "other" } } } }

/-- A listed cluster whose `containerProvider` dict lacks the `info` key. -/
def malformedCluster : VirtualCluster :=
  { id := "vc-bad"
    containerProvider := { info := none } }

/-- Sample `start_spark_job` arguments targeting namespace `emr`. -/
def exampleArgs : SparkJobArgs :=
  { NAME_SPACE := "emr"
    EMR_EKS_EXECUTION_ARN := "arn:aws:iam::123456789012:role/exec-role"
    S3_BUCKET := "app-bucket"
    JOB_NAME := "emr-spark-python"
    LOG_GROUP := "/emr-on-eks-spark"
    LOG_STREAM_PREFIX := "spark-stream"
    DB_CONN_URL := "jdbc:mysql://dbhost:3306/metadata"
    USER_NAME := "admin"
    PASSWORD := "pw"
    EntryPoint := "s3://app-bucket/job.py"
    JARS := "s3://app-bucket/mysql-connector.jar"
    Arguments := ["arg1"]
    Driver_cores := "1"
    Executor_cores := "2"
    Executor_memory := "4G" }

/-! ### Claims -/

/-- C1: evaluated at a namespace that resolves to no running virtual
cluster (an empty running-cluster listing), `start_spark_job` does not
fail with a precondition/NotFound error: it issues exactly one
start-job-run request — whose `virtualClusterId` field is the `None`
resolution result — and returns the remote response's `id`.  This
refutes the claim that zero submit requests are issued. -/
theorem C1_submit_on_unresolved_namespace_sends_request :
    (start_spark_job (mkRemote (some [])) exampleArgs).1 =
      [Request.listVirtualClusters fixedClusterFilter,
       Request.startJobRun (startJobRunRequestOf exampleArgs none)] ∧
    (startJobRunRequestOf exampleArgs none).virtualClusterId = none ∧
    (start_spark_job (mkRemote (some [])) exampleArgs).2 = Except.ok (some "job-0001") :=
  ⟨rfl, rfl, rfl⟩

/-- C2: `cancel_job` passes the cluster identifier under the misspelled
keyword `irtualClusterId`, so the issued request carries no
`virtualClusterId` field at all; the claim that `virtual_cluster_id` is
forwarded as the request's `virtualClusterId` field fails on the code. -/
theorem C2_cancel_misspells_cluster_id_keyword :
    (cancel_job (mkRemote (some [])) "jr-0001" "vc-emr").1 =
      [Request.cancelJobRun [("id", "jr-0001"), ("irtualClusterId", "vc-emr")]] ∧
    (cancelJobRunKwargs "jr-0001" "vc-emr").lookup "virtualClusterId" = none ∧
    (cancelJobRunKwargs "jr-0001" "vc-emr").lookup "irtualClusterId" = some "vc-emr" :=
  ⟨rfl, by decide, by decide⟩

/-- C10: on a listing whose first running entry lacks the nested `info`
dict, `get_cluster_by_ns` raises `AttributeError` while scanning that
entry instead of skipping it or returning the not-found signal, even
though the next entry matches the requested namespace. -/
theorem C10_malformed_entry_raises_despite_later_match :
    malformedCluster.containerProvider.info = none ∧
    embeddedNs emrCluster = some "emr" ∧
    (get_cluster_by_ns (mkRemote (some [malformedCluster, emrCluster])) "emr").2 =
      Except.error PyErr.attributeError :=
  ⟨rfl, rfl, rfl⟩

/-- C3 counterexample: a listing holding one entry that lacks the nested
`info` dict contains no cluster whose embedded namespace equals `nsx`,
yet `get_cluster_by_ns` run against it raises `AttributeError` rather
than returning the not-found signal `None`. -/
theorem C3_counterexample_malformed_listing_raises :
    embeddedNs malformedCluster ≠ some "nsx" ∧
    (get_cluster_by_ns (mkRemote (some [malformedCluster])) "nsx").2 =
      Except.error PyErr.attributeError :=
  ⟨by decide, rfl⟩

/-- On a listing whose every entry carries the full nested structure, the
scan of `get_cluster_by_ns` returns the `id` of the first entry whose
embedded namespace equals the input, and `none` when no entry matches. -/
theorem scanClusters_eq_find (tenant_ns : String) (vcs : List VirtualCluster)
    (h : ∀ vc ∈ vcs, WellFormedVC vc) :
    scanClusters tenant_ns vcs =
      Except.ok ((vcs.find? (fun vc => embeddedNs vc == some tenant_ns)).map
        VirtualCluster.id) := by
  induction vcs with
  | nil => rfl
  | cons vc rest ih =>
    have hwf : WellFormedVC vc := h vc (List.mem_cons_self vc rest)
    have hrest : ∀ v ∈ rest, WellFormedVC v := fun v hv => h v (List.mem_cons_of_mem vc hv)
    unfold WellFormedVC at hwf
    rcases hinfo : vc.containerProvider.info with _ | ci
    · rw [hinfo] at hwf; simp at hwf
    · rcases hek : ci.eksInfo with _ | ei
      · rw [hinfo] at hwf; simp [hek] at hwf
      · by_cases heq : some tenant_ns = ei.ns
        · simp [scanClusters, List.find?, embeddedNs, hinfo, hek, ← heq]
        · have hne : (embeddedNs vc == some tenant_ns) = false := by
            simp [embeddedNs, hinfo, hek]
            exact fun hc => heq hc.symm
          simp [scanClusters, List.find?, hinfo, hek, hne, heq, ih hrest]

/-- C3 (amended): provided every listed running cluster carries the full
`containerProvider.info.eksInfo` structure, for every namespace matched
by no listed cluster `get_cluster_by_ns` returns the explicit not-found
signal `None`: it raises no error and returns no ID derived from a
non-matching cluster. -/
theorem C3_no_match_returns_none (tenant_ns : String) (vcs : List VirtualCluster)
    (remote : Remote)
    (hwf : ∀ vc ∈ vcs, WellFormedVC vc)
    (hnm : ∀ vc ∈ vcs, embeddedNs vc ≠ some tenant_ns)
    (hl : remote.list_virtual_clusters fixedClusterFilter =
      Except.ok { virtualClusters := some vcs }) :
    (get_cluster_by_ns remote tenant_ns).2 = Except.ok none := by
  have hfind : vcs.find? (fun vc => embeddedNs vc == some tenant_ns) = none := by
    rw [List.find?_eq_none]
    intro vc hv
    simpa using hnm vc hv
  have hl' : remote.list_virtual_clusters
      { containerProviderType := "EKS", states := ["RUNNING"],
        maxResults := none, nextToken := none } =
      Except.ok { virtualClusters := some vcs } := hl
  simp [get_cluster_by_ns, list_clusters, hl', scanClusters_eq_find tenant_ns vcs hwf, hfind]

/-- C3 witness: a concrete no-match, well-formed listing on which the
amended claim's hypotheses hold and the resolver returns `None`. -/
theorem C3_no_match_returns_none_witness :
    (get_cluster_by_ns (mkRemote (some [otherCluster])) "emr").2 = Except.ok none :=
  C3_no_match_returns_none "emr" [otherCluster] (mkRemote (some [otherCluster]))
    (by decide) (by decide) rfl

/-- C5: for every namespace, `get_cluster_by_ns` issues exactly one
listing request with the fixed filter (provider type EKS, state RUNNING
only) and — on a listing whose entries carry the full nested structure —
returns the ID of the first cluster in listing order whose embedded
namespace equals the input (`None` when no entry matches); with several
matches the earliest match in listing order wins. -/
theorem C5_resolver_queries_fixed_filter_and_returns_first_match
    (tenant_ns : String) (vcs : List VirtualCluster) (remote : Remote)
    (hwf : ∀ vc ∈ vcs, WellFormedVC vc)
    (hl : remote.list_virtual_clusters fixedClusterFilter =
      Except.ok { virtualClusters := some vcs }) :
    (get_cluster_by_ns remote tenant_ns).1 =
      [Request.listVirtualClusters fixedClusterFilter] ∧
    (get_cluster_by_ns remote tenant_ns).2 =
      Except.ok ((vcs.find? (fun vc => embeddedNs vc == some tenant_ns)).map
        VirtualCluster.id) := by
  have hl' : remote.list_virtual_clusters
      { containerProviderType := "EKS", states := ["RUNNING"],
        maxResults := none, nextToken := none } =
      Except.ok { virtualClusters := some vcs } := hl
  constructor
  · rfl
  · simp [get_cluster_by_ns, list_clusters, hl', scanClusters_eq_find tenant_ns vcs hwf]

/-- C5 witness: on a concrete listing holding a non-matching cluster
followed by two clusters whose namespace is `emr`, the resolver returns
the earlier matching cluster's ID. -/
theorem C5_resolver_first_match_witness :
    (get_cluster_by_ns (mkRemote (some [otherCluster, emrCluster, emrCluster2])) "emr").1 =
      [Request.listVirtualClusters fixedClusterFilter] ∧
    (get_cluster_by_ns (mkRemote (some [otherCluster, emrCluster, emrCluster2])) "emr").2 =
      Except.ok (some "vc-emr") := by
  have h := C5_resolver_queries_fixed_filter_and_returns_first_match "emr"
    [otherCluster, emrCluster, emrCluster2]
    (mkRemote (some [otherCluster, emrCluster, emrCluster2])) (by decide) rfl
  exact ⟨h.1, h.2.trans rfl⟩

/-- C4: given a resolvable namespace (the scan of the listing yields a
cluster ID) and a successful remote submit, `start_spark_job` issues
exactly one start-job-run request, preceded only by the one
namespace-resolution listing call, and returns the `id` of the remote
response; the submit payload carries the resolved cluster ID, the
literal entry point and arguments supplied, and a
`sparkSubmitParameters` string that is exactly the concatenation, in
fixed order, of the jar references and the executor-memory,
executor-cores and driver-cores flags. -/
theorem C4_submit_issues_one_request_with_payload (remote : Remote) (a : SparkJobArgs)
    (vcs : List VirtualCluster) (cid : String) (resp : StartJobRunResponse)
    (hl : remote.list_virtual_clusters fixedClusterFilter =
      Except.ok { virtualClusters := some vcs })
    (hscan : scanClusters a.NAME_SPACE vcs = Except.ok (some cid))
    (hrun : remote.start_job_run (startJobRunRequestOf a (some cid)) = Except.ok resp) :
    (start_spark_job remote a).1 =
      [Request.listVirtualClusters fixedClusterFilter,
       Request.startJobRun (startJobRunRequestOf a (some cid))] ∧
    (start_spark_job remote a).2 = Except.ok resp.id ∧
    (startJobRunRequestOf a (some cid)).virtualClusterId = some cid ∧
    (startJobRunRequestOf a (some cid)).jobDriver.sparkSubmitJobDriver.entryPoint =
      a.EntryPoint ∧
    (startJobRunRequestOf a (some cid)).jobDriver.sparkSubmitJobDriver.entryPointArguments =
      a.Arguments ∧
    (startJobRunRequestOf a (some cid)).jobDriver.sparkSubmitJobDriver.sparkSubmitParameters =
      "--jars " ++ a.JARS ++ " --conf spark.executor.memory=" ++ a.Executor_memory ++
        " --conf spark.executor.cores=" ++ a.Executor_cores ++
        " --conf spark.driver.cores=" ++ a.Driver_cores := by
  have hl' : remote.list_virtual_clusters
      { containerProviderType := "EKS", states := ["RUNNING"],
        maxResults := none, nextToken := none } =
      Except.ok { virtualClusters := some vcs } := hl
  have hpair : start_spark_job remote a =
      ([Request.listVirtualClusters fixedClusterFilter,
        Request.startJobRun (startJobRunRequestOf a (some cid))],
       Except.ok resp.id) := by
    simp [start_spark_job, get_cluster_by_ns, list_clusters, hl', hscan, hrun,
      fixedClusterFilter]
  exact ⟨by rw [hpair], by rw [hpair], rfl, rfl, rfl, rfl⟩

/-- C4 witness: a concrete resolvable namespace on which the submit
hypotheses hold and the job identifier of the remote response is
returned. -/
theorem C4_submit_witness :
    (start_spark_job (mkRemote (some [emrCluster])) exampleArgs).1 =
      [Request.listVirtualClusters fixedClusterFilter,
       Request.startJobRun (startJobRunRequestOf exampleArgs (some "vc-emr"))] ∧
    (start_spark_job (mkRemote (some [emrCluster])) exampleArgs).2 =
      Except.ok (some "job-0001") := by
  have h := C4_submit_issues_one_request_with_payload (mkRemote (some [emrCluster]))
    exampleArgs [emrCluster] "vc-emr" { id := some "job-0001" } rfl rfl rfl
  exact ⟨h.1, h.2.1⟩

/-- C6: `describe_job` issues exactly one describe request whose `id`
keyword is `job_id` and whose `virtualClusterId` keyword is
`virtual_cluster_id`, both unchanged; a successful response's `jobRun`
field is returned verbatim, and a remote error (e.g. NotFound for an
unknown pair) propagates to the caller. -/
theorem C6_describe_forwards_ids_and_returns_record (remote : Remote)
    (job_id virtual_cluster_id : String) :
    (describe_job remote job_id virtual_cluster_id).1 =
      [Request.describeJobRun [("id", job_id), ("virtualClusterId", virtual_cluster_id)]] ∧
    (∀ resp : DescribeJobRunResponse,
      remote.describe_job_run (describeJobRunKwargs job_id virtual_cluster_id) =
        Except.ok resp →
      (describe_job remote job_id virtual_cluster_id).2 = Except.ok resp.jobRun) ∧
    (∀ e : PyErr,
      remote.describe_job_run (describeJobRunKwargs job_id virtual_cluster_id) =
        Except.error e →
      (describe_job remote job_id virtual_cluster_id).2 = Except.error e) := by
  refine ⟨rfl, ?_, ?_⟩ <;> intro x hx <;> simp [describe_job, hx]

/-- C6 witness: concrete identifiers, one succeeding remote and one
NotFound remote. -/
theorem C6_describe_witness :
    (describe_job (mkRemote (some [])) "jr-0001" "vc-emr").1 =
      [Request.describeJobRun [("id", "jr-0001"), ("virtualClusterId", "vc-emr")]] ∧
    (describe_job (mkRemote (some [])) "jr-0001" "vc-emr").2 =
      Except.ok (some okJobRun) ∧
    (describe_job notFoundRemote "jr-0001" "vc-emr").2 =
      Except.error (PyErr.clientError "ResourceNotFoundException") :=
  ⟨(C6_describe_forwards_ids_and_returns_record (mkRemote (some [])) "jr-0001" "vc-emr").1,
   (C6_describe_forwards_ids_and_returns_record (mkRemote (some [])) "jr-0001" "vc-emr").2.1
     { jobRun := some okJobRun } rfl,
   (C6_describe_forwards_ids_and_returns_record notFoundRemote "jr-0001" "vc-emr").2.2
     (PyErr.clientError "ResourceNotFoundException") rfl⟩

/-- The application-configuration block of a submit payload with the
given classification. -/
def appConfigFor (p : StartJobRunParams) (classification : String) :
    Option ApplicationConfiguration :=
  p.configurationOverrides.applicationConfiguration.find?
    (fun b => b.classification == classification)

/-- The value of property `k` inside the application-configuration block
of classification `c` of a submit payload. -/
def appProp (p : StartJobRunParams) (c k : String) : Option String :=
  (appConfigFor p c).bind (fun b => b.properties.lookup k)

/-- C7: for every invocation of `start_spark_job`, the submit payload
carries the same fixed blocks independent of the arguments: the pinned
release label, a job-start-timeout of 600, dynamic allocation disabled,
executor delete-on-termination enabled, a metastore/JDBC block whose
user, password and URL equal the caller-supplied DB credentials
verbatim, the caller-supplied monitoring sinks with an S3 log URI of
`s3://` plus the bucket name, and the fixed outbound-proxy
environment-variable block. -/
theorem C7_fixed_payload_blocks (a : SparkJobArgs) (cid : Option String) :
    (startJobRunRequestOf a cid).releaseLabel = "emr-6.15.0-20231109" ∧
    appProp (startJobRunRequestOf a cid) "emr-containers-defaults" "job-start-timeout" =
      some "600" ∧
    appProp (startJobRunRequestOf a cid) "spark-defaults"
      "spark.dynamicAllocation.enabled" = some "false" ∧
    appProp (startJobRunRequestOf a cid) "spark-defaults"
      "spark.kubernetes.executor.deleteOnTermination" = some "true" ∧
    appProp (startJobRunRequestOf a cid) "spark-hive-site"
      "javax.jdo.option.ConnectionUserName" = some a.USER_NAME ∧
    appProp (startJobRunRequestOf a cid) "spark-hive-site"
      "javax.jdo.option.ConnectionPassword" = some a.PASSWORD ∧
    appProp (startJobRunRequestOf a cid) "spark-hive-site"
      "javax.jdo.option.ConnectionURL" = some a.DB_CONN_URL ∧
    (startJobRunRequestOf a
        cid).configurationOverrides.monitoringConfiguration.cloudWatchMonitoringConfiguration.logGroupName =
      a.LOG_GROUP ∧
    (startJobRunRequestOf a
        cid).configurationOverrides.monitoringConfiguration.cloudWatchMonitoringConfiguration.logStreamNamePrefix =
      a.LOG_STREAM_PREFIX ∧
    (startJobRunRequestOf a
        cid).configurationOverrides.monitoringConfiguration.s3MonitoringConfiguration.logUri =
      "s3://" ++ a.S3_BUCKET ∧
    (appConfigFor (startJobRunRequestOf a cid) "spark-env").bind
        ApplicationConfiguration.configurations =
      some [{ classification := "export"
              properties := [("_JAVA_OPTIONS",
                "\"$_JAVA_OPTIONS -Dhttp.proxyHost=applicationwebproxy.nomura.com -Dhttp.proxyPort=80 -Dhttp.nonProxyHosts=s3.amazonaws.com\"")] }] := by
  refine ⟨rfl, ?_, ?_, ?_, ?_, ?_, ?_, rfl, rfl, rfl, ?_⟩ <;> rfl

/-- C8: `list_jobs` passes exactly the state filter, the creation-time
window and the resolved cluster ID to the remote listing call, and
`list_clusters` passes exactly the provider type and state filter; both
requests carry no continuation token and no page-size parameter
(`nextToken = none`, `maxResults = none`), and each call returns the
single-page sequence the remote service reports — the `jobRuns`
respectively `virtualClusters` field — verbatim. -/
theorem C8_listings_pass_filters_and_return_single_page (remote : Remote)
    (NAME_SPACE created_before created_after : String) (states : List String)
    (cpt : String) (cstates : List String)
    (vcs : List VirtualCluster) (cid : String)
    (jresp : ListJobRunsResponse) (cresp : ListVirtualClustersResponse)
    (hl : remote.list_virtual_clusters fixedClusterFilter =
      Except.ok { virtualClusters := some vcs })
    (hscan : scanClusters NAME_SPACE vcs = Except.ok (some cid))
    (hj : remote.list_job_runs
      { virtualClusterId := some cid, createdBefore := created_before,
        createdAfter := created_after, states := states,
        maxResults := none, nextToken := none } = Except.ok jresp)
    (hc : remote.list_virtual_clusters
      { containerProviderType := cpt, states := cstates,
        maxResults := none, nextToken := none } = Except.ok cresp) :
    (list_jobs remote NAME_SPACE created_before created_after states).1 =
      [Request.listVirtualClusters fixedClusterFilter,
       Request.listJobRuns
         { virtualClusterId := some cid, createdBefore := created_before,
           createdAfter := created_after, states := states,
           maxResults := none, nextToken := none }] ∧
    (list_jobs remote NAME_SPACE created_before created_after states).2 =
      Except.ok jresp.jobRuns ∧
    (list_clusters remote cpt cstates).1 =
      [Request.listVirtualClusters
        { containerProviderType := cpt, states := cstates,
          maxResults := none, nextToken := none }] ∧
    (list_clusters remote cpt cstates).2 = Except.ok cresp.virtualClusters := by
  have hl' : remote.list_virtual_clusters
      { containerProviderType := "EKS", states := ["RUNNING"],
        maxResults := none, nextToken := none } =
      Except.ok { virtualClusters := some vcs } := hl
  have hpair : list_jobs remote NAME_SPACE created_before created_after states =
      ([Request.listVirtualClusters fixedClusterFilter,
        Request.listJobRuns
          { virtualClusterId := some cid, createdBefore := created_before,
            createdAfter := created_after, states := states,
            maxResults := none, nextToken := none }],
       Except.ok jresp.jobRuns) := by
    simp [list_jobs, get_cluster_by_ns, list_clusters, hl', hscan, hj, fixedClusterFilter]
  refine ⟨by rw [hpair], by rw [hpair], rfl, ?_⟩
  simp [list_clusters, hc]

/-- C8 witness: a concrete remote, namespace, window and filter set on
which the hypotheses hold, with the reported single-page sequences
returned verbatim. -/
theorem C8_listings_witness :
    (list_jobs (mkRemote (some [emrCluster])) "emr" "2024-01-19T00:00:00Z"
        "2023-12-31T00:00:00Z" ["RUNNING", "COMPLETED"]).2 =
      Except.ok (some [okJobRun]) ∧
    (list_clusters (mkRemote (some [emrCluster])) "EKS" ["RUNNING"]).2 =
      Except.ok (some [emrCluster]) := by
  have h := C8_listings_pass_filters_and_return_single_page (mkRemote (some [emrCluster]))
    "emr" "2024-01-19T00:00:00Z" "2023-12-31T00:00:00Z" ["RUNNING", "COMPLETED"]
    "EKS" ["RUNNING"] [emrCluster] "vc-emr"
    { jobRuns := some [okJobRun] } { virtualClusters := some [emrCluster] }
    rfl rfl rfl rfl
  exact ⟨h.2.1, h.2.2.2⟩

/-- C9: payload construction is a deterministic function of the call
arguments and the fixed literals: two client instances constructed with
the same region, invoked with the same arguments against the same
remote, dispatch identical request sequences for every operation. -/
theorem C9_identical_clients_issue_identical_requests
    (c1 c2 : EMRContainers) (h : c1.REGION = c2.REGION)
    (remote : Remote) (a : SparkJobArgs)
    (job_id virtual_cluster_id NAME_SPACE created_before created_after : String)
    (states : List String) (cpt : String) (cstates : List String) (tenant_ns : String) :
    sentRequests c1 (start_spark_job remote a).1 =
      sentRequests c2 (start_spark_job remote a).1 ∧
    sentRequests c1 (describe_job remote job_id virtual_cluster_id).1 =
      sentRequests c2 (describe_job remote job_id virtual_cluster_id).1 ∧
    sentRequests c1 (cancel_job remote job_id virtual_cluster_id).1 =
      sentRequests c2 (cancel_job remote job_id virtual_cluster_id).1 ∧
    sentRequests c1 (list_jobs remote NAME_SPACE created_before created_after states).1 =
      sentRequests c2 (list_jobs remote NAME_SPACE created_before created_after states).1 ∧
    sentRequests c1 (list_clusters remote cpt cstates).1 =
      sentRequests c2 (list_clusters remote cpt cstates).1 ∧
    sentRequests c1 (get_cluster_by_ns remote tenant_ns).1 =
      sentRequests c2 (get_cluster_by_ns remote tenant_ns).1 := by
  refine ⟨?_, ?_, ?_, ?_, ?_, ?_⟩ <;> simp [sentRequests, h]

/-- C9 witness: two clients constructed with the same concrete region
dispatch the same wire requests for a concrete submit call. -/
theorem C9_determinism_witness :
    sentRequests { REGION := "us-east-1" }
        (start_spark_job (mkRemote (some [emrCluster])) exampleArgs).1 =
      sentRequests { REGION := "us-east-1" }
        (start_spark_job (mkRemote (some [emrCluster])) exampleArgs).1 :=
  (C9_identical_clients_issue_identical_requests
    { REGION := "us-east-1" } { REGION := "us-east-1" } rfl
    (mkRemote (some [emrCluster])) exampleArgs
    "jr-0001" "vc-emr" "emr" "2024-01-19T00:00:00Z" "2023-12-31T00:00:00Z"
    ["RUNNING"] "EKS" ["RUNNING"] "emr").1

end EmrContainers
